import Mathlib

/-!
Shallow embedding of the status-journal and transaction-posting core of the
arloader repository (src/lib.rs), together with theorems settling the spec
claims about it.  Byte strings are `List Nat`, timestamps are `Nat`, the
filesystem is an association list from file names to file contents, and the
network is an oracle argument carrying the HTTP response.  Serde JSON
encoding of status records, the BLAKE3 digest and the RawStatus JSON parser
live in crates outside src/, so they enter as explicit function parameters.
-/

namespace Arloader

/-- Modelled from the spec: the status lifecycle codes of `status.rs`
(`src/status.rs` is not in the tree); §3 lists
`{Submitted, Pending, NotFound, Confirmed, Failed}` with initial `Submitted`. -/
inductive StatusCode
  | Submitted
  | Pending
  | NotFound
  | Confirmed
  | Failed
deriving DecidableEq, Repr

/-- Modelled from the spec: the optional remote confirmation data of §3:
`raw_status: optional { block_height, block_indep_hash, number_of_confirmations }`. -/
structure RawStatus where
  block_height : Nat
  block_indep_hash : List Nat
  number_of_confirmations : Nat
deriving DecidableEq, Repr

/-- Modelled from the spec: the status record of §3 (`src/status.rs` is not in
the tree).  `id` is the transaction id bytes, timestamps are abstract instants. -/
structure Status where
  id : List Nat
  status : StatusCode
  file_path : Option String
  created_at : Nat
  last_modified : Nat
  reward : Nat
  raw_status : Option RawStatus
deriving DecidableEq, Repr

/-- Modelled from the spec: the error taxonomy of §7 (`src/error.rs` is not in
the tree); only the kinds the claims mention are carried. -/
inductive ArweaveError
  | UnsignedTransaction
  | MissingFilePath
  | StatusNotFound
  | StatusCorrupt
  | MalformedResponse
  | UnexpectedStatus (code : Nat)
  | PostFailed (code : Nat)
  | IOFailure
deriving DecidableEq, Repr

/-- Modelled from the spec: the transaction record of §3 (`src/transaction.rs`
is not in the tree); binary fields are byte lists, numeric fields `Nat`. -/
structure Transaction where
  format : Nat
  id : List Nat
  last_tx : List Nat
  owner : List Nat
  tags : List (List Nat × List Nat)
  target : List Nat
  quantity : List Nat
  data : List Nat
  data_size : Nat
  data_root : List Nat
  reward : Nat
  signature : List Nat
deriving DecidableEq, Repr

/-- An HTTP response as seen by the client: numeric status code and body text. -/
structure HttpResponse where
  status : Nat
  body : String
deriving DecidableEq, Repr

/-- The on-disk log directory: an association list from file name to file
content, first binding wins. -/
def Fs := List (String × String)

instance : DecidableEq Fs := by
  unfold Fs
  infer_instance

instance : Repr Fs := by
  unfold Fs
  infer_instance

/-- Store `v` under name `k`, shadowing any previous binding (overwrite). -/
def fsSet (fs : Fs) (k v : String) : Fs := (k, v) :: fs

/-- Look up the content stored under name `k`. -/
def fsGet (fs : Fs) (k : String) : Option String :=
  (List.find? (fun p => p.1 = k) fs).map (fun p => p.2)

/-- The status file name from `write_status`/`read_status` in src/lib.rs:
`log_dir.join(file_path_hash.to_string()).with_extension("json")`, where
`file_path_hash` is the hex BLAKE3 digest of the path (the digest itself is
the external `blake3` crate, passed in as `hash`). -/
def statusFileName (hash : String → String) (log_dir file_path : String) : String :=
  log_dir ++ "/" ++ hash file_path ++ ".json"

/-- `write_status` from src/lib.rs lines 350-367: requires `file_path` to be
set (else `MissingFilePath`), then a non-empty `id` (else
`UnsignedTransaction`), then writes the serde JSON of the record (`ser`) under
the BLAKE3-keyed name.  `writeOk` is the disk oracle: `false` makes the
`fs::write` fail, returning the I/O error with the filesystem untouched.  The
returned pair is (call result, filesystem afterwards). -/
def write_status (ser : Status → String) (hash : String → String) (fs : Fs)
    (status : Status) (log_dir : String) (writeOk : Bool) :
    Except ArweaveError Unit × Fs :=
  match status.file_path with
  | some fp =>
    if status.id = [] then
      (Except.error ArweaveError.UnsignedTransaction, fs)
    else if writeOk then
      (Except.ok (), fsSet fs (statusFileName hash log_dir fp) (ser status))
    else
      (Except.error ArweaveError.IOFailure, fs)
  | none => (Except.error ArweaveError.MissingFilePath, fs)

/-- `read_status` from src/lib.rs lines 369-383: recomputes the BLAKE3-keyed
name; a missing file is `StatusNotFound`, a file that `deser` (serde) rejects
is `StatusCorrupt`. -/
def read_status (deser : String → Option Status) (hash : String → String)
    (fs : Fs) (file_path log_dir : String) : Except ArweaveError Status :=
  match fsGet fs (statusFileName hash log_dir file_path) with
  | some data =>
    match deser data with
    | some status => Except.ok status
    | none => Except.error ArweaveError.StatusCorrupt
  | none => Except.error ArweaveError.StatusNotFound

/-- Confirmation count used by `filter_statuses` in src/lib.rs: the
`raw_status.number_of_confirmations`, taken as 0 when `raw_status` is `None`. -/
def confirmsOf (s : Status) : Nat :=
  match s.raw_status with
  | some raw_status => raw_status.number_of_confirmations
  | none => 0

/-- `filter_statuses` from src/lib.rs lines 525-575, after the
`read_statuses` step has produced `all_statuses`: four branches on whether
the `statuses` list and `max_confirms` bound are provided, mirroring the
nested `if let` structure of the source. -/
def filter_statuses (all_statuses : List Status)
    (statuses : Option (List StatusCode)) (max_confirms : Option Nat) :
    List Status :=
  match statuses with
  | some statuses =>
    match max_confirms with
    | some max_confirms =>
      all_statuses.filter (fun s =>
        (statuses.any (fun c => c = s.status)) && (confirmsOf s ≤ max_confirms))
    | none =>
      all_statuses.filter (fun s => statuses.any (fun c => c = s.status))
  | none =>
    match max_confirms with
    | some max_confirms =>
      all_statuses.filter (fun s => confirmsOf s ≤ max_confirms)
    | none => all_statuses

/-- Outcome of `post_transaction`: success, a typed error, or a process abort.
`panicked` embeds the Rust `assert_eq!` / `unreachable!` macro aborts, which
are neither a return value nor a typed error. -/
inductive PostOutcome
  | ok (s : Status)
  | err (e : ArweaveError)
  | panicked
deriving DecidableEq, Repr

/-- `post_transaction` from src/lib.rs lines 307-336: an empty `id` fails with
`UnsignedTransaction` before the POST; otherwise the transaction is POSTed
(the oracle `resp` is the network's answer) and `assert_eq!(resp.status()
.as_u16(), 200)` aborts on any non-200 code; on 200 a fresh `Submitted`
status record is built.  The `Bool` in the result records whether the HTTP
POST was performed. -/
def post_transaction (tx : Transaction) (file_path : Option String) (now : Nat)
    (resp : HttpResponse) : PostOutcome × Bool :=
  if tx.id = [] then
    (PostOutcome.err ArweaveError.UnsignedTransaction, false)
  else if resp.status = 200 then
    (PostOutcome.ok
      { id := tx.id
        reward := tx.reward
        file_path := file_path
        status := StatusCode.Submitted
        created_at := now
        last_modified := now
        raw_status := none }, true)
  else
    (PostOutcome.panicked, true)

/-- Outcome of `update_status`, carrying the filesystem afterwards.
`panicked` embeds the `unreachable!()` arm. -/
inductive UpdateOutcome
  | ok (s : Status) (fs : Fs)
  | err (e : ArweaveError) (fs : Fs)
  | panicked (fs : Fs)
deriving DecidableEq, Repr

/-- `update_status` from src/lib.rs lines 430-454: read the stored record,
GET `tx/{id}/status` (oracle `resp`), stamp `last_modified := now`, map the
HTTP code — 200 with body `"Pending"` sets `Pending`; 200 with any other body
parses it as a `RawStatus` (`parseRaw`, serde) and sets `Confirmed`; 202 sets
`Pending`; 404 sets `NotFound`; anything else hits `unreachable!()` — and
finally re-write the file.  `writeOk` is the disk oracle for that final
write. -/
def update_status (ser : Status → String) (deser : String → Option Status)
    (hash : String → String) (parseRaw : String → Option RawStatus) (fs : Fs)
    (file_path log_dir : String) (now : Nat) (resp : HttpResponse)
    (writeOk : Bool) : UpdateOutcome :=
  match read_status deser hash fs file_path log_dir with
  | Except.error e => UpdateOutcome.err e fs
  | Except.ok s0 =>
    let s1 := { s0 with last_modified := now }
    let finish := fun (s : Status) =>
      match write_status ser hash fs s log_dir writeOk with
      | (Except.ok _, fs2) => UpdateOutcome.ok s fs2
      | (Except.error e, fs2) => UpdateOutcome.err e fs2
    if resp.status = 200 then
      if resp.body = "Pending" then
        finish { s1 with status := StatusCode.Pending }
      else
        match parseRaw resp.body with
        | some raw =>
          finish { s1 with raw_status := some raw, status := StatusCode.Confirmed }
        | none => UpdateOutcome.err ArweaveError.MalformedResponse fs
    else if resp.status = 202 then
      finish { s1 with status := StatusCode.Pending }
    else if resp.status = 404 then
      finish { s1 with status := StatusCode.NotFound }
    else
      UpdateOutcome.panicked fs

/-- Left-align a string in a field of `w` characters (Rust `{:<w}`). -/
def padRightStr (s : String) (w : Nat) : String :=
  s ++ String.mk (List.replicate (w - s.length) ' ')

/-- Right-align a string in a field of `w` characters (Rust `{:>w}`). -/
def padLeftStr (s : String) (w : Nat) : String :=
  String.mk (List.replicate (w - s.length) ' ') ++ s

/-- Modelled from the spec: the display label of a status code, as used for
the summary rows (`src/status.rs` is not in the tree; §4.D names the rows
`Submitted`, `Pending`, `NotFound`, `Confirmed`). -/
def StatusCode.label : StatusCode → String
  | StatusCode.Submitted => "Submitted"
  | StatusCode.Pending => "Pending"
  | StatusCode.NotFound => "NotFound"
  | StatusCode.Confirmed => "Confirmed"
  | StatusCode.Failed => "Failed"

/-- The count a status code receives in `status_summary`: the `HashMap`
fold of src/lib.rs lines 401-407 tallies each record under its code, and
`get(&k).unwrap_or(&0)` reads the tally back. -/
def statusCount (l : List Status) (k : StatusCode) : Nat :=
  l.countP (fun s => s.status = k)

/-- The fixed row order of src/lib.rs lines 413-418. -/
def summaryCodes : List StatusCode :=
  [StatusCode.Submitted, StatusCode.Pending, StatusCode.NotFound,
    StatusCode.Confirmed]

/-- The running `total` of src/lib.rs lines 409-422: the four displayed
counts summed, nothing else. -/
def summaryTotal (l : List Status) : Nat :=
  summaryCodes.foldl (fun acc k => acc + statusCount l k) 0

/-- The 29-dash rule line (Rust `writeln!(output, "{:-<29}", "")`). -/
def summaryRule : String := String.mk (List.replicate 29 '-') ++ "\n"

/-- A per-code data row of src/lib.rs line 420:
`writeln!(output, " {:<16} {:>10}", label, count)`. -/
def summaryDataRow (label : String) (count : Nat) : String :=
  " " ++ padRightStr label 16 ++ " " ++ padLeftStr (toString count) 10 ++ "\n"

/-- A header/Total row of src/lib.rs lines 411 and 425:
`writeln!(output, " {:<15}  {:>10}", label, value)`. -/
def summaryEdgeRow (label value : String) : String :=
  " " ++ padRightStr label 15 ++ "  " ++ padLeftStr value 10 ++ "\n"

/-- `status_summary` from src/lib.rs lines 396-428, after `read_statuses`
has produced the record list: header row, rule, one row per code appended in
the fixed order (the `for` loop), rule, Total row. -/
def status_summary (l : List Status) : String :=
  (summaryCodes.foldl (fun acc k => acc ++ summaryDataRow k.label (statusCount l k))
      (summaryEdgeRow "status" "count" ++ summaryRule)) ++
    summaryRule ++ summaryEdgeRow "Total" (toString (summaryTotal l))

/-- The filtering predicate as §4.D of the spec words it, for comparison with
`filter_statuses`: status in `statuses` when that argument is set, AND
confirmations (0 when `raw_status` is absent) at most `max_confirms` when that
argument is set. -/
def specKeep (statuses : Option (List StatusCode)) (max_confirms : Option Nat)
    (s : Status) : Bool :=
  (match statuses with
   | some cs => decide (s.status ∈ cs)
   | none => true) &&
  (match max_confirms with
   | some m => decide (confirmsOf s ≤ m)
   | none => true)

/-- A sample signed transaction (non-empty `id`). -/
def sampleTx : Transaction :=
  { format := 2
    id := [1]
    last_tx := [3]
    owner := [4]
    tags := [([5], [6])]
    target := []
    quantity := []
    data := [7]
    data_size := 1
    data_root := [8]
    reward := 5
    signature := [2] }

/-- A sample unsigned transaction (empty `id`). -/
def unsignedTx : Transaction := { sampleTx with id := [], signature := [] }

/-- A sample stored status record with remote confirmation data attached. -/
def storedStatus : Status :=
  { id := [1]
    status := StatusCode.Confirmed
    file_path := some "a.png"
    created_at := 0
    last_modified := 0
    reward := 5
    raw_status := some { block_height := 10, block_indep_hash := [7],
                         number_of_confirmations := 3 } }

/-- A sample path-digest oracle standing in for the BLAKE3 hex digest. -/
def sampleHash : String → String := fun _ => "abcd"

/-- A sample serde encoder for status records. -/
def sampleSer : Status → String := fun _ => "enc"

/-- A sample serde decoder, inverse of `sampleSer` on `storedStatus`. -/
def sampleDeser : String → Option Status := fun _ => some storedStatus

/-- A sample `RawStatus` body parser (never needed on the tested inputs). -/
def sampleParseRaw : String → Option RawStatus := fun _ => none

/-- A log directory already holding the journal file of `storedStatus`. -/
def sampleFs : Fs := [("log/abcd.json", "enc")]

end Arloader

namespace Arloader

theorem fsGet_fsSet (fs : Fs) (k v : String) : fsGet (fsSet fs k v) k = some v := by
  simp [fsGet, fsSet]

/-- Claim C3: for every transaction whose `id` is empty, `post_transaction`
fails with `UnsignedTransaction` and the HTTP POST is never performed
(the performed-flag of the embedding is `false`). -/
theorem post_transaction_unsigned_no_http (tx : Transaction)
    (file_path : Option String) (now : Nat) (resp : HttpResponse)
    (h : tx.id = []) :
    post_transaction tx file_path now resp =
      (PostOutcome.err ArweaveError.UnsignedTransaction, false) := by
  simp [post_transaction, h]

/-- Witness for C3 at the concrete unsigned transaction. -/
theorem post_transaction_unsigned_no_http_witness :
    unsignedTx.id = [] ∧
      post_transaction unsignedTx none 0 { status := 200, body := "OK" } =
        (PostOutcome.err ArweaveError.UnsignedTransaction, false) :=
  ⟨rfl, post_transaction_unsigned_no_http unsignedTx none 0
    { status := 200, body := "OK" } rfl⟩

/-- Claim C1 (divergence): for the concrete signed transaction `sampleTx` and
a POST answered with HTTP 404, `post_transaction` hits the
`assert_eq!(resp.status().as_u16(), 200)` abort — the embedding returns
`panicked` — instead of the `PostFailed(404)` error the spec requires. -/
theorem post_transaction_non200_panics :
    post_transaction sampleTx none 0 { status := 404, body := "" } =
        (PostOutcome.panicked, true) ∧
      post_transaction sampleTx none 0 { status := 404, body := "" } ≠
        (PostOutcome.err (ArweaveError.PostFailed 404), true) := by
  constructor
  · rfl
  · decide

/-- Claim C10: a status record without `file_path` makes `write_status` fail
with `MissingFilePath` whatever the `id` field holds, and the filesystem is
returned unchanged — the `file_path` check precedes the empty-`id` check. -/
theorem write_status_missing_file_path (ser : Status → String)
    (hash : String → String) (fs : Fs) (status : Status) (log_dir : String)
    (writeOk : Bool) (h : status.file_path = none) :
    write_status ser hash fs status log_dir writeOk =
      (Except.error ArweaveError.MissingFilePath, fs) := by
  simp [write_status, h]

/-- Witness for C10 at a record lacking both `file_path` and `id`: the error
is `MissingFilePath`, not `UnsignedTransaction`, and nothing is written. -/
theorem write_status_missing_file_path_witness :
    ({ storedStatus with file_path := none, id := [] } : Status).file_path
        = none ∧
      ({ storedStatus with file_path := none, id := [] } : Status).id = [] ∧
      write_status sampleSer sampleHash sampleFs
          { storedStatus with file_path := none, id := [] } "log" true =
        (Except.error ArweaveError.MissingFilePath, sampleFs) :=
  ⟨rfl, rfl, write_status_missing_file_path sampleSer sampleHash sampleFs
    { storedStatus with file_path := none, id := [] } "log" true rfl⟩

/-- Claim C4: for a record with `file_path` set and a non-empty `id`, and a
serde codec that round-trips on the record, `write_status` stores the encoded
record under the name `log_dir ++ "/" ++ hash(file_path) ++ ".json"` (the hex
BLAKE3 digest plus `.json` inside the log directory) and `read_status` on the
same `(path, log_dir)` returns an equal record. -/
theorem write_read_status_roundtrip (ser : Status → String)
    (deser : String → Option Status) (hash : String → String) (fs : Fs)
    (status : Status) (log_dir fp : String) (hfp : status.file_path = some fp)
    (hid : ¬ status.id = []) (hcodec : deser (ser status) = some status) :
    write_status ser hash fs status log_dir true =
        (Except.ok (), fsSet fs (log_dir ++ "/" ++ hash fp ++ ".json")
          (ser status)) ∧
      read_status deser hash
          (fsSet fs (log_dir ++ "/" ++ hash fp ++ ".json") (ser status))
          fp log_dir = Except.ok status := by
  have hkey : statusFileName hash log_dir fp =
      log_dir ++ "/" ++ hash fp ++ ".json" := rfl
  constructor
  · simp [write_status, hfp, hid, hkey]
  · simp [read_status, hkey, fsGet_fsSet, hcodec]

/-- Witness for C4 at `storedStatus` with the sample codec and digest. -/
theorem write_read_status_roundtrip_witness :
    storedStatus.file_path = some "a.png" ∧ ¬ storedStatus.id = [] ∧
      sampleDeser (sampleSer storedStatus) = some storedStatus ∧
      (write_status sampleSer sampleHash [] storedStatus "log" true =
          (Except.ok (),
            fsSet [] ("log" ++ "/" ++ sampleHash "a.png" ++ ".json")
              (sampleSer storedStatus)) ∧
        read_status sampleDeser sampleHash
            (fsSet [] ("log" ++ "/" ++ sampleHash "a.png" ++ ".json")
              (sampleSer storedStatus)) "a.png" "log" =
          Except.ok storedStatus) :=
  ⟨rfl, by decide, rfl,
    write_read_status_roundtrip sampleSer sampleDeser sampleHash [] storedStatus
      "log" "a.png" rfl (by decide) rfl⟩

theorem any_eq_mem (cs : List StatusCode) (x : StatusCode) :
    (cs.any fun c => c = x) = decide (x ∈ cs) := by
  induction cs with
  | nil => rfl
  | cons c t ih =>
    simp only [List.any_cons, ih, List.mem_cons]
    by_cases h : x = c
    · simp [h]
    · have h2 : ¬ c = x := fun hc => h hc.symm
      simp [h, h2]

/-- Claim C5: `filter_statuses` keeps exactly the records satisfying the
spec's predicate — status in `statuses` when set, AND confirmations (0 when
`raw_status` is absent) at most `max_confirms` when set — and with both
arguments omitted it returns every record. -/
theorem filter_statuses_spec (l : List Status)
    (statuses : Option (List StatusCode)) (max_confirms : Option Nat) :
    filter_statuses l statuses max_confirms =
        l.filter (specKeep statuses max_confirms) ∧
      filter_statuses l none none = l := by
  refine ⟨?_, rfl⟩
  cases statuses with
  | none =>
    cases max_confirms with
    | none =>
      rw [show specKeep none none = fun _ => true from rfl]
      exact (List.filter_true l).symm
    | some m =>
      apply List.filter_congr
      intro x _
      simp [specKeep]
  | some cs =>
    cases max_confirms with
    | none =>
      apply List.filter_congr
      intro x _
      simp [specKeep, any_eq_mem]
    | some m =>
      apply List.filter_congr
      intro x _
      simp [specKeep, any_eq_mem]

/-- The record as `update_status` leaves it on a `Pending` outcome:
`last_modified` stamped, status set to `Pending`, every other field kept. -/
def pendingAt (s : Status) (now : Nat) : Status := { s with last_modified := now, status := StatusCode.Pending }

/-- Claim C2 (divergence): at the concrete journal `sampleFs` holding
`storedStatus`, a remote `tx/{id}/status` answered with HTTP 500 drives
`update_status` into the `_ => unreachable!()` arm — the embedding returns
`panicked` — instead of the `UnexpectedStatus(500)` error the spec requires. -/
theorem update_status_unexpected_code_panics :
    update_status sampleSer sampleDeser sampleHash sampleParseRaw sampleFs
          "a.png" "log" 9 { status := 500, body := "" } true =
        UpdateOutcome.panicked sampleFs ∧
      update_status sampleSer sampleDeser sampleHash sampleParseRaw sampleFs
          "a.png" "log" 9 { status := 500, body := "" } true ≠
        UpdateOutcome.err (ArweaveError.UnexpectedStatus 500) sampleFs := by
  constructor
  · rfl
  · decide

/-- Counterexample to claim C6 as stated: at the concrete journal `sampleFs`,
whose stored record carries `raw_status = some {…}`, HTTP 200 with body
`"Pending"` makes `update_status` set the status to `Pending` while the
`raw_status` field keeps its old value — it is not cleared to `none`. -/
theorem update_status_pending_raw_kept :
    update_status sampleSer sampleDeser sampleHash sampleParseRaw sampleFs
        "a.png" "log" 9 { status := 200, body := "Pending" } true =
      UpdateOutcome.ok (pendingAt storedStatus 9)
        (fsSet sampleFs "log/abcd.json"
          (sampleSer (pendingAt storedStatus 9))) ∧
      (pendingAt storedStatus 9 : Status).raw_status ≠ none := by
  constructor
  · rfl
  · decide

/-- Claim C6 as amended: when the remote answers HTTP 200 with body exactly
`"Pending"`, `update_status` sets the record's status to `Pending` and leaves
`raw_status` unchanged (it is not cleared) before re-writing the file. -/
theorem update_status_pending_raw_unchanged (ser : Status → String)
    (deser : String → Option Status) (hash : String → String)
    (parseRaw : String → Option RawStatus) (fs : Fs)
    (file_path log_dir : String) (now : Nat) (s0 : Status) (fp : String)
    (hread : read_status deser hash fs file_path log_dir = Except.ok s0)
    (hfp : s0.file_path = some fp) (hid : ¬ s0.id = []) :
    update_status ser deser hash parseRaw fs file_path log_dir now
        { status := 200, body := "Pending" } true =
      UpdateOutcome.ok (pendingAt s0 now)
        (fsSet fs (statusFileName hash log_dir fp)
          (ser (pendingAt s0 now))) ∧
      (pendingAt s0 now).raw_status = s0.raw_status := by
  refine ⟨?_, rfl⟩
  simp [update_status, hread, write_status, hfp, hid, pendingAt]

/-- Witness for C6 (amended) at the concrete journal `sampleFs`. -/
theorem update_status_pending_raw_unchanged_witness :
    read_status sampleDeser sampleHash sampleFs "a.png" "log" =
        Except.ok storedStatus ∧
      storedStatus.file_path = some "a.png" ∧ ¬ storedStatus.id = [] ∧
      (update_status sampleSer sampleDeser sampleHash sampleParseRaw sampleFs
          "a.png" "log" 9 { status := 200, body := "Pending" } true =
        UpdateOutcome.ok (pendingAt storedStatus 9)
          (fsSet sampleFs (statusFileName sampleHash "log" "a.png")
            (sampleSer (pendingAt storedStatus 9))) ∧
        (pendingAt storedStatus 9 : Status).raw_status =
          storedStatus.raw_status) :=
  ⟨rfl, rfl, by decide,
    update_status_pending_raw_unchanged sampleSer sampleDeser sampleHash
      sampleParseRaw sampleFs "a.png" "log" 9 storedStatus "a.png" rfl
      rfl (by decide)⟩

/-- Claim C7: when the remote answers HTTP 202, `update_status` sets
`status = Pending`, leaves `raw_status` unchanged, stamps
`last_modified = now`, and re-writes the journal file as the final step: with
a failing disk write the caller gets the I/O error and the journal is
returned unchanged. -/
theorem update_status_accepted (ser : Status → String)
    (deser : String → Option Status) (hash : String → String)
    (parseRaw : String → Option RawStatus) (fs : Fs)
    (file_path log_dir body : String) (now : Nat) (s0 : Status) (fp : String)
    (hread : read_status deser hash fs file_path log_dir = Except.ok s0)
    (hfp : s0.file_path = some fp) (hid : ¬ s0.id = []) :
    update_status ser deser hash parseRaw fs file_path log_dir now
        { status := 202, body := body } true =
      UpdateOutcome.ok (pendingAt s0 now)
        (fsSet fs (statusFileName hash log_dir fp)
          (ser (pendingAt s0 now))) ∧
      (pendingAt s0 now).raw_status = s0.raw_status ∧
      (pendingAt s0 now).last_modified = now ∧
      update_status ser deser hash parseRaw fs file_path log_dir now
        { status := 202, body := body } false =
      UpdateOutcome.err ArweaveError.IOFailure fs := by
  refine ⟨?_, rfl, rfl, ?_⟩ <;>
    simp [update_status, hread, write_status, hfp, hid, pendingAt]

/-- Witness for C7 at the concrete journal `sampleFs`, both with a working
and with a failing disk. -/
theorem update_status_accepted_witness :
    read_status sampleDeser sampleHash sampleFs "a.png" "log" =
        Except.ok storedStatus ∧
      storedStatus.file_path = some "a.png" ∧ ¬ storedStatus.id = [] ∧
      (update_status sampleSer sampleDeser sampleHash sampleParseRaw sampleFs
          "a.png" "log" 9 { status := 202, body := "" } true =
        UpdateOutcome.ok (pendingAt storedStatus 9)
          (fsSet sampleFs (statusFileName sampleHash "log" "a.png")
            (sampleSer (pendingAt storedStatus 9))) ∧
        (pendingAt storedStatus 9 : Status).raw_status =
          storedStatus.raw_status ∧
        (pendingAt storedStatus 9 : Status).last_modified = 9 ∧
        update_status sampleSer sampleDeser sampleHash sampleParseRaw sampleFs
          "a.png" "log" 9 { status := 202, body := "" } false =
        UpdateOutcome.err ArweaveError.IOFailure sampleFs) :=
  ⟨rfl, rfl, by decide,
    update_status_accepted sampleSer sampleDeser sampleHash sampleParseRaw
      sampleFs "a.png" "log" "" 9 storedStatus "a.png" rfl rfl
      (by decide)⟩

theorem stringMk_data (l : List Char) : (String.mk l).data = l := rfl

theorem summaryDataRow_eq_edgeRow (label : String) (c : Nat)
    (h : label.length ≤ 15) :
    summaryDataRow label c = summaryEdgeRow label (toString c) := by
  have h16 : 16 - label.length = (15 - label.length) + 1 := by omega
  apply String.ext
  simp only [summaryDataRow, summaryEdgeRow, padRightStr, padLeftStr,
    String.data_append, stringMk_data, h16, List.replicate_add,
    List.append_assoc, List.replicate_one]
  rfl

/-- Claim C8: for every record list, `status_summary` renders a header, a
29-dash rule, exactly the five data rows `Submitted`, `Pending`, `NotFound`,
`Confirmed`, `Total` in that fixed order whatever the counts, each row a
15-character left-aligned label followed by a 10-character right-aligned
count, with the 29-dash rule separating the sections. -/
theorem status_summary_layout (l : List Status) :
    status_summary l =
      summaryEdgeRow "status" "count" ++ summaryRule ++
        summaryEdgeRow "Submitted"
          (toString (statusCount l StatusCode.Submitted)) ++
        summaryEdgeRow "Pending" (toString (statusCount l StatusCode.Pending)) ++
        summaryEdgeRow "NotFound"
          (toString (statusCount l StatusCode.NotFound)) ++
        summaryEdgeRow "Confirmed"
          (toString (statusCount l StatusCode.Confirmed)) ++
        summaryRule ++ summaryEdgeRow "Total" (toString (summaryTotal l)) := by
  have e1 := summaryDataRow_eq_edgeRow "Submitted"
    (statusCount l StatusCode.Submitted) (by decide)
  have e2 := summaryDataRow_eq_edgeRow "Pending"
    (statusCount l StatusCode.Pending) (by decide)
  have e3 := summaryDataRow_eq_edgeRow "NotFound"
    (statusCount l StatusCode.NotFound) (by decide)
  have e4 := summaryDataRow_eq_edgeRow "Confirmed"
    (statusCount l StatusCode.Confirmed) (by decide)
  simp only [status_summary, summaryCodes, List.foldl, StatusCode.label]
  rw [e1, e2, e3, e4]

theorem summaryTotal_expand (l : List Status) :
    summaryTotal l =
      statusCount l StatusCode.Submitted + statusCount l StatusCode.Pending +
        statusCount l StatusCode.NotFound +
        statusCount l StatusCode.Confirmed := by
  simp [summaryTotal, summaryCodes, List.foldl]

theorem summaryTotal_eq_countP (l : List Status) :
    summaryTotal l = List.countP (fun s => decide (s.status ∈ summaryCodes)) l := by
  induction l with
  | nil => rfl
  | cons s t ih =>
    have hc : ∀ k, statusCount (s :: t) k =
        statusCount t k + (if s.status = k then 1 else 0) := by
      intro k
      simp [statusCount, List.countP_cons]
    rw [List.countP_cons, ← ih, summaryTotal_expand, summaryTotal_expand,
      hc, hc, hc, hc]
    cases h : s.status <;> simp [h, summaryCodes] <;> omega

theorem statusCount_filter_not_failed (l : List Status) (k : StatusCode)
    (hk : ¬ k = StatusCode.Failed) :
    statusCount
        (List.filter (fun s => decide (¬ s.status = StatusCode.Failed)) l) k =
      statusCount l k := by
  unfold statusCount
  rw [List.countP_filter]
  apply List.countP_congr
  intro s _
  simp only [Bool.and_eq_true, decide_eq_true_eq]
  constructor
  · rintro ⟨h1, _⟩
    exact h1
  · intro h1
    refine ⟨h1, ?_⟩
    rw [h1]
    exact hk

/-- Claim C9: a `Failed` record is counted in no row of `status_summary` —
the whole table is unchanged when `Failed` records are dropped — and the
Total row equals the number of records whose status lies in
`{Submitted, Pending, NotFound, Confirmed}`, not the number of records read. -/
theorem status_summary_excludes_failed (l : List Status) :
    summaryTotal l = List.countP (fun s => decide (s.status ∈ summaryCodes)) l ∧
      status_summary l =
        status_summary
          (List.filter (fun s => decide (¬ s.status = StatusCode.Failed)) l) := by
  constructor
  · exact summaryTotal_eq_countP l
  · have c1 := statusCount_filter_not_failed l StatusCode.Submitted (by decide)
    have c2 := statusCount_filter_not_failed l StatusCode.Pending (by decide)
    have c3 := statusCount_filter_not_failed l StatusCode.NotFound (by decide)
    have c4 := statusCount_filter_not_failed l StatusCode.Confirmed (by decide)
    have ht : summaryTotal
        (List.filter (fun s => decide (¬ s.status = StatusCode.Failed)) l) =
        summaryTotal l := by
      rw [summaryTotal_expand, summaryTotal_expand, c1, c2, c3, c4]
    simp only [status_summary, summaryCodes, List.foldl, StatusCode.label]
    rw [c1, c2, c3, c4, ht]

end Arloader
